import Mathlib

/-!
Shallow embedding of `db.go` (package `freegeoip`): the database handle
(`DB`), its swap/notify protocol (`setReader`, `sendError`, `Close`,
`Lookup`, `Date`, `openFile`), the fsnotify watch loop (`watchEvents`),
the update scheduler's backoff (`autoUpdate`), the staleness check
(`needUpdate`) and the download/install path (`download`, `runUpdate`).

Modelling conventions:
- `time.Time` instants are `Int` (an abstract UTC timestamp); the Go zero
  value `time.Time{}` is `0`, and `modtime.UTC()` is the identity on the
  instant it denotes.
- `time.Duration` values are `Nat` counts of seconds (`5 * time.Second`
  is `5`); `int64` duration overflow is out of scope (the cap at
  `maxRetryInterval` keeps realistic values far below 2^63 ns).
- The external `maxminddb.Reader` is an opaque collaborator: a `Reader`
  carries an identity `rid` and an arbitrary query function; calling its
  `Close()` is recorded in the handle's `closedReaders` effect log.
- Go channels of capacity one are `GoChan`: a single slot, a closed flag
  and a count of how many times `close()` ran on them; closing a closed
  channel is a Go panic, modelled as `none`.
- Filesystem and network outcomes (`os.Stat`, gzip/decoder results, HTTP
  responses) are passed in as explicit oracle values, since they are
  external to the package.
-/

/-- A capacity-one Go channel: one buffered slot, a closed flag, and the
number of times `close()` has been executed on it. -/
structure GoChan (α : Type) where
  slot : Option α
  isClosed : Bool
  closeCount : Nat

/-- Non-blocking send (`select { case ch <- x: default: }`): stores the
value iff the one-slot buffer is free. The callers in `db.go` only reach
a send while holding the lock with `closed == false`, so the channel is
never closed at a send. -/
def chanTrySend {α : Type} (c : GoChan α) (x : α) : GoChan α :=
  if c.slot.isNone then { c with slot := some x } else c

/-- `close(ch)`: panics (`none`) if the channel is already closed,
otherwise marks it closed and counts the close. -/
def chanClose {α : Type} (c : GoChan α) : Option (GoChan α) :=
  if c.isClosed then none
  else some { c with isClosed := true, closeCount := c.closeCount + 1 }

/-- An installed `maxminddb.Reader` instance: an identity used to track
which instances have been closed, and the external decoder's lookup
behaviour as an abstract function from address to result-or-error. -/
structure Reader where
  rid : Nat
  query : Nat → Except String Nat

/-- `ErrUnavailable` from `db.go`. -/
def ErrUnavailable : String := "No database available"

/-- The `DB` struct of `db.go`. `closedReaders` is the effect log of
`rid`s whose `Close()` has been called (the Go code's side effect on the
external decoder instances). -/
structure DB where
  file : String
  reader : Option Reader
  notifyQuit : GoChan Unit
  notifyOpen : GoChan String
  notifyError : GoChan String
  closed : Bool
  lastUpdated : Int
  updateInterval : Nat
  maxRetryInterval : Nat
  closedReaders : List Nat

/-- `db.setReader(reader, modtime)`: under the exclusive lock, if the
handle is closed the new instance is closed and dropped; otherwise the
previous instance (if any) is closed, the new one installed,
`lastUpdated` set to `modtime.UTC()`, and the file name sent
non-blockingly on `notifyOpen`. -/
def DB.setReader (db : DB) (reader : Reader) (modtime : Int) : DB :=
  if db.closed then
    { db with closedReaders := db.closedReaders ++ [reader.rid] }
  else
    { db with
      reader := some reader
      lastUpdated := modtime
      notifyOpen := chanTrySend db.notifyOpen db.file
      closedReaders :=
        db.closedReaders ++
          (match db.reader with
           | some r => [r.rid]
           | none => []) }

/-- `db.sendError(err)`: emits nothing when closed, otherwise a
non-blocking send on `notifyError`. -/
def DB.sendError (db : DB) (e : String) : DB :=
  if db.closed then db
  else { db with notifyError := chanTrySend db.notifyError e }

/-- The tail of `db.Close()`: if a reader is installed, close it and set
the field to nil. -/
def DB.clearReader (db : DB) : DB :=
  match db.reader with
  | some r => { db with reader := none, closedReaders := db.closedReaders ++ [r.rid] }
  | none => db

/-- `db.Close()`: on the first call sets `closed`, closes the three
notification channels, then (on every call) closes and clears the
reader. `none` models a Go panic from closing a closed channel. -/
def DB.Close (db : DB) : Option DB :=
  if db.closed then
    some db.clearReader
  else
    match chanClose db.notifyQuit, chanClose db.notifyOpen, chanClose db.notifyError with
    | some q, some o, some e =>
      some (DB.clearReader
        { db with closed := true, notifyQuit := q, notifyOpen := o, notifyError := e })
    | _, _, _ => none

/-- `db.Lookup(addr, result)`: delegates to the installed reader
verbatim, or fails with `ErrUnavailable` when no reader is installed. -/
def DB.Lookup (db : DB) (addr : Nat) : Except String Nat :=
  match db.reader with
  | some r => r.query addr
  | none => Except.error ErrUnavailable

/-- `db.Date()`: returns `lastUpdated` under the shared lock. -/
def DB.Date (db : DB) : Int :=
  db.lastUpdated

/-- Combined outcome of `db.newReader(db.file)` followed by
`os.Stat(db.file)` at the moment `openFile` runs: either a fresh decoder
instance together with the file's modification time, or the first error
(missing/unreadable file, gzip failure, decoder rejection, stat
failure). -/
inductive LoadOutcome where
  | ok (reader : Reader) (modtime : Int)
  | fail (e : String)

/-- `db.openFile()`: on a successful load installs the new reader via
`setReader` and returns nil; on failure returns the error with the
handle untouched. -/
def DB.openFile (db : DB) (out : LoadOutcome) : DB × Option String :=
  match out with
  | .ok r t => (db.setReader r t, none)
  | .fail e => (db, some e)

/-- The `DB` literal built by `OpenURL` before `db.openFile()` and the
background goroutines run: Go zero values for `reader`, `closed` and
`lastUpdated`, fresh open capacity-one channels. `file` is the package's
`defaultDB` cache path. -/
def openURLInit (updateInterval maxRetryInterval : Nat) : DB :=
  { file := "/tmp/freegeoip/db.gz"
    reader := none
    notifyQuit := ⟨none, false, 0⟩
    notifyOpen := ⟨none, false, 0⟩
    notifyError := ⟨none, false, 0⟩
    closed := false
    lastUpdated := 0
    updateInterval := updateInterval
    maxRetryInterval := maxRetryInterval
    closedReaders := [] }

/-- One background mutation of the handle: a watch-triggered
`openFile` attempt, or a scheduler `sendError`. -/
inductive BgStep where
  | reload (out : LoadOutcome)
  | bgError (e : String)

/-- Apply one background step to the handle. -/
def applyBg (db : DB) (s : BgStep) : DB :=
  match s with
  | .reload out => (db.openFile out).1
  | .bgError e => db.sendError e

/-- A step that is not a successful install. -/
def isFailedStep : BgStep → Bool
  | .reload (.ok _ _) => false
  | .reload (.fail _) => true
  | .bgError _ => true

/-- The local state of `autoUpdate`'s loop: `var sleep time.Duration`
(zero value 0) and `var retrying bool` (zero value false). -/
structure RetryState where
  retrying : Bool
  sleep : Nat

/-- One iteration of `autoUpdate`'s failure-handling block: on a failed
cycle, the first failure after a success waits `5 * time.Second`; each
consecutive failure doubles the wait and caps it at
`db.maxRetryInterval`; a successful cycle resets `retrying` and sleeps
`db.updateInterval`. -/
def backoffNext (maxRetryInterval updateInterval : Nat) (st : RetryState)
    (failed : Bool) : RetryState :=
  if failed then
    if !st.retrying then
      { retrying := true, sleep := 5 }
    else
      let s := st.sleep * 2
      { retrying := true, sleep := if s > maxRetryInterval then maxRetryInterval else s }
  else
    { retrying := false, sleep := updateInterval }

/-- The loop state after `n` consecutive failed cycles starting from the
loop entry (or equivalently from just after a successful cycle, whose
state also has `retrying = false`). -/
def failWaits (maxRetryInterval updateInterval : Nat) : Nat → RetryState
  | 0 => { retrying := false, sleep := 0 }
  | n + 1 => backoffNext maxRetryInterval updateInterval
      (failWaits maxRetryInterval updateInterval n) true

/-- `strconv.Atoi` (base-10 `ParseInt`) on the digit strings relevant
here: an optional sign followed by at least one decimal digit; on a
syntax error the Go call returns value 0 with a non-nil error, modelled
as `(0, false)`. (Range errors on values beyond `int64` are out of
scope.) -/
def atoiDigits : List Char → Nat → Option Nat
  | [], acc => some acc
  | c :: rest, acc =>
    if c.isDigit then atoiDigits rest (acc * 10 + (c.toNat - 48)) else none

/-- Core of base-10 `ParseInt`: `some` value for an optional sign
followed by at least one decimal digit, `none` on a syntax error. -/
def atoiCore : List Char → Option Int
  | [] => none
  | '+' :: rest =>
    match rest, atoiDigits rest 0 with
    | [], _ => none
    | _ :: _, some n => some ((n : Int))
    | _ :: _, none => none
  | '-' :: rest =>
    match rest, atoiDigits rest 0 with
    | [], _ => none
    | _ :: _, some n => some (-(n : Int))
    | _ :: _, none => none
  | cs =>
    match atoiDigits cs 0 with
    | some n => some ((n : Int))
    | none => none

/-- Go `strconv.Atoi`: the parsed value and whether the parse succeeded.
A failed parse yields value 0 (the pair Go returns alongside the
error). -/
def goAtoi (s : String) : Int × Bool :=
  match atoiCore s.toList with
  | some n => (n, true)
  | none => (0, false)

/-- Outcome of `os.Stat(db.file)` in `needUpdate`: the local file is
missing (stat error) or present with a byte size. -/
inductive StatResult where
  | missing (e : String)
  | found (size : Nat)

/-- Outcome of `http.Head(url)`: a transport error, or a response whose
`Content-Length` header has the given string value (the empty string
when the header is absent). -/
inductive HeadResult where
  | herr (e : String)
  | hok (contentLength : String)

/-- `db.needUpdate(url)`. First component: the `(bool, error)` result as
`Except error bool`. Second component: whether the HEAD request was
issued. A missing local file short-circuits to `(true, nil)` with no
request; otherwise the remote `Content-Length` is parsed with `Atoi`,
its error ignored, and the sizes compared. -/
def needUpdate (stat : StatResult) (head : HeadResult) : Except String Bool × Bool :=
  match stat with
  | .missing _ => (Except.ok true, false)
  | .found n =>
    match head with
    | .herr e => (Except.error e, true)
    | .hok cl =>
      let size := (goAtoi cl).1
      if (n : Int) ≠ size then (Except.ok true, true) else (Except.ok false, true)

/-- Filesystem effect log of one update cycle: temp files created and
temp files removed. -/
structure FsLog where
  created : List String
  removed : List String
  deriving DecidableEq

/-- Outcome of `db.download(url)`'s external steps: the GET fails, the
temp-file create fails, the body copy fails (after the file was
created), or everything succeeds. -/
inductive DlOutcome where
  | getErr (e : String)
  | createErr (e : String)
  | copyErr (e : String)
  | ok

/-- `db.download(url)` with temp name `tmpfile`
(`_freegeoip.<nanos>.db.gz` under the temp dir): returns the temp file
name or the first error, together with the files it created/removed. A
failed body copy returns the error but removes nothing. -/
def download (tmpfile : String) (out : DlOutcome) : Except String String × FsLog :=
  match out with
  | .getErr e => (Except.error e, ⟨[], []⟩)
  | .createErr e => (Except.error e, ⟨[], []⟩)
  | .copyErr e => (Except.error e, ⟨[tmpfile], []⟩)
  | .ok => (Except.ok tmpfile, ⟨[tmpfile], []⟩)

/-- Outcome of `db.renameFile(name)` after the best-effort `.bak` rename
(whose failure is ignored): `makeDir` fails, the final `os.Rename` into
the canonical path fails, or the install succeeds. -/
inductive RenameOutcome where
  | mkdirErr (e : String)
  | renameErr (e : String)
  | ok

/-- The error returned by `db.renameFile`. -/
def renameResult : RenameOutcome → Option String
  | .mkdirErr e => some e
  | .renameErr e => some e
  | .ok => none

/-- External outcomes of one `runUpdate` cycle. -/
structure UpdEnv where
  need : Except String Bool
  dl : DlOutcome
  ren : RenameOutcome

/-- `db.runUpdate(url)`: staleness check, then download, then install;
`os.RemoveAll(tmpfile)` runs only when `renameFile` failed, and the
rename's error is returned. Result: the cycle's error (if any) and the
temp-file effect log. -/
def runUpdate (tmpfile : String) (env : UpdEnv) : Option String × FsLog :=
  match env.need with
  | .error e => (some e, ⟨[], []⟩)
  | .ok false => (none, ⟨[], []⟩)
  | .ok true =>
    match download tmpfile env.dl with
    | (.error e, log) => (some e, log)
    | (.ok tf, log) =>
      match renameResult env.ren with
      | some e => (some e, { log with removed := log.removed ++ [tf] })
      | none => (none, log)

/-- Temp files a cycle left behind: created but never removed. -/
def FsLog.leftover (log : FsLog) : List String :=
  log.created.filter (fun f => ¬ f ∈ log.removed)

/-- An fsnotify `FileEvent` as consumed by `watchEvents`: the path it
names and its create/modify flags. -/
structure FsEvent where
  name : String
  isCreate : Bool
  isModify : Bool

/-- One message received by the `watchEvents` select, quit apart: a file
event or an error from the watch primitive (which `watchEvents`
discards). -/
inductive WatchMsg where
  | event (ev : FsEvent)
  | werror (e : String)

/-- The condition under which `watchEvents` reloads:
`ev.Name == db.file && (ev.IsCreate() || ev.IsModify())`. -/
def msgTriggers (file : String) : WatchMsg → Bool
  | .event ev => ev.name == file && (ev.isCreate || ev.isModify)
  | .werror _ => false

/-- A run of the `watchEvents` loop over a queue of delivered messages
(the fsnotify channel delivers every event; the `time.Sleep(time.Second)`
at the bottom of the loop delays the next receive but discards
nothing). `load k` is the filesystem/decoder outcome seen by the `k`-th
`openFile` call; `k` counts reloads performed so far. Returns the final
handle, the total reload count, and the number of one-second sleeps
executed. -/
def watchEventsRun (load : Nat → LoadOutcome) (db : DB) (msgs : List WatchMsg)
    (k : Nat) : DB × Nat × Nat :=
  match msgs with
  | [] => (db, k, 0)
  | msg :: rest =>
    if msgTriggers db.file msg then
      ((watchEventsRun load ((db.openFile (load k)).1) rest (k + 1)).1,
       (watchEventsRun load ((db.openFile (load k)).1) rest (k + 1)).2.1,
       (watchEventsRun load ((db.openFile (load k)).1) rest (k + 1)).2.2 + 1)
    else
      ((watchEventsRun load db rest k).1,
       (watchEventsRun load db rest k).2.1,
       (watchEventsRun load db rest k).2.2 + 1)

/-! ## Helper lemmas -/

theorem clearReader_reader (db : DB) : db.clearReader.reader = none := by
  unfold DB.clearReader
  cases hr : db.reader <;> simp [hr]

theorem clearReader_closed (db : DB) : db.clearReader.closed = db.closed := by
  unfold DB.clearReader
  cases hr : db.reader <;> simp [hr]

theorem clearReader_of_none {db : DB} (h : db.reader = none) : db.clearReader = db := by
  unfold DB.clearReader
  rw [h]

theorem close_reader_none {db db1 : DB} (h : db.Close = some db1) :
    db1.reader = none := by
  unfold DB.Close at h
  split at h
  · cases h
    exact clearReader_reader _
  · split at h
    · cases h
      exact clearReader_reader _
    · cases h

theorem sendError_lastUpdated (db : DB) (e : String) :
    (db.sendError e).lastUpdated = db.lastUpdated := by
  unfold DB.sendError
  split <;> simp

theorem setReader_file (db : DB) (r : Reader) (t : Int) :
    (db.setReader r t).file = db.file := by
  unfold DB.setReader
  split <;> simp

theorem openFile_file (db : DB) (out : LoadOutcome) :
    ((db.openFile out).1).file = db.file := by
  unfold DB.openFile
  cases out with
  | ok r t => exact setReader_file db r t
  | fail e => rfl

/-! ## Claim C1 -/

/-- Claim C1: after `closed` is set, an install attempt (`setReader`)
closes and discards the freshly built decoder instance, leaving the
active instance, `lastUpdated` and all three notification channels
untouched; `sendError` emits nothing; a failed `openFile` changes
nothing; `closed` stays true; and `Close` on an already-closed handle
(whose reader is already nil) changes nothing. -/
theorem closed_handle_frozen (db : DB) (r : Reader) (t : Int) (e : String)
    (h : db.closed = true) :
    db.setReader r t = { db with closedReaders := db.closedReaders ++ [r.rid] }
    ∧ db.sendError e = db
    ∧ (db.openFile (LoadOutcome.fail e)).1 = db
    ∧ (db.setReader r t).closed = true
    ∧ (db.sendError e).closed = true
    ∧ (db.reader = none → db.Close = some db) := by
  refine ⟨?_, ?_, ?_, ?_, ?_, ?_⟩
  · simp [DB.setReader, h]
  · simp [DB.sendError, h]
  · rfl
  · simp [DB.setReader, h]
  · simp [DB.sendError, h]
  · intro hr
    simp [DB.Close, h, clearReader_of_none hr]

/-- Concrete closed handle used by the C1 witness. -/
def c1db : DB := { openURLInit 3600 86400 with closed := true }

/-- Concrete decoder instance used by the C1 witness. -/
def c1r : Reader := ⟨9, fun a => Except.ok (a + 1)⟩

/-- Witness for C1 at a concrete closed handle. -/
theorem closed_handle_frozen_witness :
    c1db.setReader c1r 5 = { c1db with closedReaders := c1db.closedReaders ++ [c1r.rid] }
    ∧ c1db.sendError "boom" = c1db
    ∧ (c1db.openFile (LoadOutcome.fail "boom")).1 = c1db
    ∧ (c1db.setReader c1r 5).closed = true
    ∧ (c1db.sendError "boom").closed = true
    ∧ c1db.Close = some c1db := by
  have h := closed_handle_frozen c1db c1r 5 "boom" rfl
  exact ⟨h.1, h.2.1, h.2.2.1, h.2.2.2.1, h.2.2.2.2.1, h.2.2.2.2.2 rfl⟩

/-! ## Claim C5 -/

/-- Claim C5: `Lookup` delegates verbatim to the installed reader's
query when one exists, returns `ErrUnavailable` when none is installed,
and after any successful `Close` every `Lookup` returns
`ErrUnavailable`. -/
theorem lookup_delegates_or_unavailable (db : DB) (addr : Nat) :
    (∀ r, db.reader = some r → db.Lookup addr = r.query addr)
    ∧ (db.reader = none → db.Lookup addr = Except.error ErrUnavailable)
    ∧ (∀ db1, db.Close = some db1 → db1.Lookup addr = Except.error ErrUnavailable) := by
  refine ⟨?_, ?_, ?_⟩
  · intro r hr
    simp [DB.Lookup, hr]
  · intro hr
    simp [DB.Lookup, hr]
  · intro db1 hc
    simp [DB.Lookup, close_reader_none hc]

/-- Concrete open handle with an installed reader for the C5 witness. -/
def c5db : DB := { openURLInit 3600 86400 with reader := some ⟨3, fun a => Except.ok (a * 2)⟩ }

/-- The handle `c5db.Close` produces. -/
def c5dbClosed : DB :=
  { c5db with
    closed := true
    reader := none
    notifyQuit := ⟨none, true, 1⟩
    notifyOpen := ⟨none, true, 1⟩
    notifyError := ⟨none, true, 1⟩
    closedReaders := [3] }

/-- Witness for C5: delegation on an installed reader, unavailability on
a fresh handle, and unavailability after `Close`. -/
theorem lookup_delegates_or_unavailable_witness :
    c5db.Lookup 21 = Except.ok 42
    ∧ (openURLInit 3600 86400).Lookup 21 = Except.error ErrUnavailable
    ∧ c5dbClosed.Lookup 21 = Except.error ErrUnavailable := by
  refine ⟨?_, ?_, ?_⟩
  · exact (lookup_delegates_or_unavailable c5db 21).1 ⟨3, fun a => Except.ok (a * 2)⟩ rfl
  · exact (lookup_delegates_or_unavailable (openURLInit 3600 86400) 21).2.1 rfl
  · exact (lookup_delegates_or_unavailable c5db 21).2.2 c5dbClosed rfl

/-! ## Claim C8 -/

/-- The state of a channel after a successful `close()`. -/
def chanMarkClosed {α : Type} (c : GoChan α) : GoChan α :=
  { c with isClosed := true, closeCount := c.closeCount + 1 }

theorem chanClose_of_open {α : Type} {c : GoChan α} (h : c.isClosed = false) :
    chanClose c = some (chanMarkClosed c) := by
  simp [chanClose, chanMarkClosed, h]

/-- The state `Close` produces from an open handle. -/
def DB.afterFirstClose (db : DB) : DB :=
  DB.clearReader
    { db with
      closed := true
      notifyQuit := chanMarkClosed db.notifyQuit
      notifyOpen := chanMarkClosed db.notifyOpen
      notifyError := chanMarkClosed db.notifyError }

/-- Claim C8: on a handle whose channels are open and whose `closed`
flag is down, the first `Close` succeeds (no panic), closing each of the
three notification channels exactly once (the close of `notifyQuit`
being the single emission on the closed stream); any later `Close`
returns the same state unchanged — it closes no channel, performs no
state change, and does not panic. -/
theorem close_idempotent (db : DB)
    (h : db.closed = false)
    (hq : db.notifyQuit.isClosed = false)
    (ho : db.notifyOpen.isClosed = false)
    (he : db.notifyError.isClosed = false) :
    db.Close = some db.afterFirstClose
    ∧ ∀ db1, db.Close = some db1 →
        db1.Close = some db1
        ∧ db1.closed = true
        ∧ db1.reader = none
        ∧ db1.notifyQuit.closeCount = db.notifyQuit.closeCount + 1
        ∧ db1.notifyOpen.closeCount = db.notifyOpen.closeCount + 1
        ∧ db1.notifyError.closeCount = db.notifyError.closeCount + 1 := by
  have hfirst : db.Close = some db.afterFirstClose := by
    simp [DB.Close, h, chanClose_of_open hq, chanClose_of_open ho,
      chanClose_of_open he, DB.afterFirstClose]
  refine ⟨hfirst, ?_⟩
  intro db1 hc
  rw [hfirst] at hc
  cases hc
  have hr := clearReader_reader
    ({ db with
       closed := true
       notifyQuit := chanMarkClosed db.notifyQuit
       notifyOpen := chanMarkClosed db.notifyOpen
       notifyError := chanMarkClosed db.notifyError } : DB)
  have hcl := clearReader_closed
    ({ db with
       closed := true
       notifyQuit := chanMarkClosed db.notifyQuit
       notifyOpen := chanMarkClosed db.notifyOpen
       notifyError := chanMarkClosed db.notifyError } : DB)
  refine ⟨?_, ?_, hr, ?_, ?_, ?_⟩
  · simp [DB.Close, DB.afterFirstClose, hcl, clearReader_of_none hr]
  · simpa [DB.afterFirstClose] using hcl
  · unfold DB.afterFirstClose DB.clearReader
    cases hx : db.reader <;> simp [chanMarkClosed]
  · unfold DB.afterFirstClose DB.clearReader
    cases hx : db.reader <;> simp [chanMarkClosed]
  · unfold DB.afterFirstClose DB.clearReader
    cases hx : db.reader <;> simp [chanMarkClosed]

/-- Concrete open handle for the C8 witness. -/
def c8db : DB := openURLInit 3600 86400

/-- The state after the first `Close` of `c8db`. -/
def c8db1 : DB :=
  { c8db with
    closed := true
    notifyQuit := ⟨none, true, 1⟩
    notifyOpen := ⟨none, true, 1⟩
    notifyError := ⟨none, true, 1⟩ }

/-- Witness for C8 at a concrete fresh handle. -/
theorem close_idempotent_witness :
    c8db.Close = some c8db1
    ∧ c8db1.Close = some c8db1
    ∧ c8db1.closed = true
    ∧ c8db1.reader = none
    ∧ c8db1.notifyQuit.closeCount = 1
    ∧ c8db1.notifyOpen.closeCount = 1
    ∧ c8db1.notifyError.closeCount = 1 := by
  have h := close_idempotent c8db rfl rfl rfl rfl
  have h1 : c8db.Close = some c8db1 := h.1
  have h2 := h.2 c8db1 h1
  exact ⟨h1, h2.1, h2.2.1, h2.2.2.1, h2.2.2.2.1, h2.2.2.2.2.1, h2.2.2.2.2.2⟩

/-! ## Claim C10 -/

/-- `Date` is unchanged by any background step that is not a successful
install. -/
theorem applyBg_date_of_failed {s : BgStep} (db : DB)
    (hs : isFailedStep s = true) : (applyBg db s).Date = db.Date := by
  cases s with
  | reload out =>
    cases out with
    | ok r t => simp [isFailedStep] at hs
    | fail e => rfl
  | bgError e => exact sendError_lastUpdated db e

/-- Claim C10: a URL-backed handle starts with the zero timestamp, every
sequence of failed loads and background errors leaves `Date()` at the
zero timestamp, and the first successful install on a non-closed handle
sets `Date()` to the installed file's modification time. -/
theorem date_zero_before_first_load (u m : Nat) (steps : List BgStep)
    (hs : steps.all isFailedStep = true) :
    (openURLInit u m).Date = 0
    ∧ (steps.foldl applyBg (openURLInit u m)).Date = 0
    ∧ (∀ (db : DB) (r : Reader) (t : Int),
        db.closed = false → (db.setReader r t).Date = t) := by
  have hgen : ∀ (sl : List BgStep) (db : DB), sl.all isFailedStep = true →
      (sl.foldl applyBg db).Date = db.Date := by
    intro sl
    induction sl with
    | nil => intro db _; rfl
    | cons s rest ih =>
      intro db hall
      rw [List.all_cons, Bool.and_eq_true] at hall
      rw [List.foldl_cons, ih _ hall.2, applyBg_date_of_failed db hall.1]
  refine ⟨rfl, ?_, ?_⟩
  · rw [hgen steps _ hs]
    rfl
  · intro db r t hdb
    simp [DB.setReader, DB.Date, hdb]

/-- Witness for C10: two failed background steps keep `Date()` at zero,
then a successful install sets it. -/
theorem date_zero_before_first_load_witness :
    (openURLInit 3600 86400).Date = 0
    ∧ (([BgStep.reload (LoadOutcome.fail "no such file"),
         BgStep.bgError "Database update failed"].foldl applyBg
          (openURLInit 3600 86400)).Date = 0)
    ∧ ((openURLInit 3600 86400).setReader ⟨4, fun a => Except.ok a⟩ 1700000000).Date
        = 1700000000 := by
  have h := date_zero_before_first_load 3600 86400
    [BgStep.reload (LoadOutcome.fail "no such file"),
     BgStep.bgError "Database update failed"] rfl
  exact ⟨h.1, h.2.1, h.2.2 _ _ 1700000000 rfl⟩

/-! ## Claim C2 -/

/-- Decoder instance used by the C2 counterexample. -/
def c2r1 : Reader := ⟨1, fun a => Except.ok a⟩

/-- Second decoder instance used by the C2 counterexample. -/
def c2r2 : Reader := ⟨2, fun a => Except.ok a⟩

/-- Counterexample to C2: `setReader` stores the new file's modification
time unconditionally, so installing a file whose modification time is
older than the current one (here 50 after 100) makes `Date()` decrease
across a successful install. -/
theorem date_monotonic_counterexample :
    ((openURLInit 3600 86400).setReader c2r1 100).Date = 100
    ∧ (((openURLInit 3600 86400).setReader c2r1 100).setReader c2r2 50).Date = 50
    ∧ ¬ ((openURLInit 3600 86400).setReader c2r1 100).Date
          ≤ (((openURLInit 3600 86400).setReader c2r1 100).setReader c2r2 50).Date := by
  refine ⟨rfl, rfl, ?_⟩
  intro hle
  simp [openURLInit, DB.setReader, DB.Date, chanTrySend] at hle

/-- Claim C2 (amended): every successful install (`setReader` on a
non-closed handle) makes the installed instance active and sets
`Date()` to the modification time (UTC) of the file that produced it,
so the timestamp always equals the active instance's file modification
time; but no monotonicity is enforced — installing a file with an older
modification time moves `Date()` backwards. -/
theorem date_equals_modtime_of_active (db : DB) (r : Reader) (t : Int)
    (h : db.closed = false) :
    (db.setReader r t).reader = some r
    ∧ (db.setReader r t).Date = t := by
  constructor <;> simp [DB.setReader, DB.Date, h]

/-- Witness for the amended C2 at a concrete handle. -/
theorem date_equals_modtime_of_active_witness :
    ((openURLInit 3600 86400).setReader c2r1 1700000000).reader = some c2r1
    ∧ ((openURLInit 3600 86400).setReader c2r1 1700000000).Date = 1700000000 :=
  date_equals_modtime_of_active (openURLInit 3600 86400) c2r1 1700000000 rfl

/-! ## Claim C3 -/

theorem backoffNext_fail_retrying (m u : Nat) (st : RetryState) :
    (backoffNext m u st true).retrying = true := by
  unfold backoffNext
  by_cases h : st.retrying <;> simp [h]

theorem backoffNext_fail_sleep (m u : Nat) (st : RetryState)
    (h : st.retrying = true) :
    (backoffNext m u st true).sleep = min (2 * st.sleep) m := by
  unfold backoffNext
  simp [h]
  split <;> omega

theorem failWaits_retrying (m u n : Nat) :
    (failWaits m u (n + 1)).retrying = true := by
  cases n with
  | zero => rfl
  | succ k => exact backoffNext_fail_retrying m u (failWaits m u (k + 1))

/-- Counterexample to C3: with `maxRetryInterval = 3` seconds the first
failed cycle still waits 5 seconds — the fixed first wait is not capped
by the configured maximum, so the claimed formula
`min(5 * 2^(n-1), maxRetryInterval)` fails at `n = 1`. -/
theorem backoff_formula_counterexample :
    (failWaits 3 3600 1).sleep = 5
    ∧ ¬ (failWaits 3 3600 1).sleep = min (5 * 2 ^ 0) 3 := by
  decide

/-- Claim C3 (amended): the first failure after a success (or at loop
start) waits exactly 5 seconds, uncapped; each later consecutive
failure waits `min(2 * previous wait, maxRetryInterval)`; a successful
cycle resets the state so the next wait is the base refresh interval;
and whenever `maxRetryInterval ≥ 5` seconds the wait after the `n`-th
consecutive failure is exactly `min(5 * 2^(n-1), maxRetryInterval)`. -/
theorem backoff_schedule (m u : Nat) (st : RetryState) (n : Nat)
    (hst : st.retrying = false) (h5 : 5 ≤ m) :
    (backoffNext m u st true).sleep = 5
    ∧ backoffNext m u st false = { retrying := false, sleep := u }
    ∧ (∀ st2 : RetryState, st2.retrying = true →
        (backoffNext m u st2 true).sleep = min (2 * st2.sleep) m)
    ∧ (failWaits m u (n + 1)).sleep = min (5 * 2 ^ n) m := by
  refine ⟨by simp [backoffNext, hst], by simp [backoffNext],
    fun st2 h2 => backoffNext_fail_sleep m u st2 h2, ?_⟩
  induction n with
  | zero =>
    show (backoffNext m u (failWaits m u 0) true).sleep = min (5 * 2 ^ 0) m
    unfold backoffNext failWaits
    simp
    omega
  | succ k ih =>
    have hstep : (failWaits m u (k + 2)).sleep
        = min (2 * (failWaits m u (k + 1)).sleep) m :=
      backoffNext_fail_sleep m u (failWaits m u (k + 1)) (failWaits_retrying m u k)
    rw [hstep, ih]
    have hp : 5 * 2 ^ (k + 1) = 2 * (5 * 2 ^ k) := by ring
    rw [hp]
    generalize 5 * 2 ^ k = p
    omega

/-- Witness for the amended C3 at concrete intervals. -/
theorem backoff_schedule_witness :
    (backoffNext 3600 60 ⟨false, 0⟩ true).sleep = 5
    ∧ backoffNext 3600 60 ⟨false, 0⟩ false = { retrying := false, sleep := 60 }
    ∧ (backoffNext 3600 60 ⟨true, 20⟩ true).sleep = min (2 * 20) 3600
    ∧ (failWaits 3600 60 4).sleep = min (5 * 2 ^ 3) 3600 := by
  have h := backoff_schedule 3600 60 ⟨false, 0⟩ 3 rfl (by decide)
  exact ⟨h.1, h.2.1, h.2.2.1 ⟨true, 20⟩ rfl, h.2.2.2⟩

/-! ## Claim C4 -/

/-- A failed `Atoi` parse carries the value 0. -/
theorem goAtoi_fail_zero (s : String) (h : (goAtoi s).2 = false) :
    (goAtoi s).1 = 0 := by
  unfold goAtoi at *
  cases hc : atoiCore s.toList with
  | none => simp [hc]
  | some n => rw [hc] at h; simp at h

/-- Counterexample to C4: with a zero-byte local file and an absent (or
unparsable) `Content-Length` header, the ignored `Atoi` failure yields
size 0, the comparison `0 != 0` is false, and `needUpdate` reports the
file as up to date instead of conservatively forcing a re-download. -/
theorem needUpdate_unparsable_counterexample :
    (goAtoi "").2 = false
    ∧ needUpdate (StatResult.found 0) (HeadResult.hok "") = (Except.ok false, true) := by
  exact ⟨rfl, rfl⟩

/-- Claim C4 (amended): `needUpdate` returns true with no HEAD request
when the local file is missing; a HEAD transport error is returned as an
error; otherwise the request is issued and the result is true exactly
when the local byte size differs from the `Atoi`-parsed remote
`Content-Length`, whose parse error is ignored and whose failure value
is 0 — so an unavailable or unparsable header forces a re-download
exactly when the local file size is nonzero, and is treated as up to
date when the local size is zero. -/
theorem needUpdate_size_compare (e cl : String) (n : Nat) (head : HeadResult) :
    needUpdate (StatResult.missing e) head = (Except.ok true, false)
    ∧ needUpdate (StatResult.found n) (HeadResult.herr e) = (Except.error e, true)
    ∧ needUpdate (StatResult.found n) (HeadResult.hok cl)
        = (Except.ok (decide (¬ (n : Int) = (goAtoi cl).1)), true)
    ∧ ((goAtoi cl).2 = false → (goAtoi cl).1 = 0)
    ∧ ((goAtoi cl).2 = false →
        needUpdate (StatResult.found n) (HeadResult.hok cl)
          = (Except.ok (decide (¬ n = 0)), true)) := by
  have hcompare : needUpdate (StatResult.found n) (HeadResult.hok cl)
      = (Except.ok (decide (¬ (n : Int) = (goAtoi cl).1)), true) := by
    by_cases h : (n : Int) = (goAtoi cl).1 <;> simp [needUpdate, h]
  refine ⟨rfl, rfl, hcompare, goAtoi_fail_zero cl, ?_⟩
  intro hfail
  rw [hcompare, goAtoi_fail_zero cl hfail]
  have hd : (decide (¬ (n : Int) = 0)) = (decide (¬ n = 0)) := by
    simp [decide_eq_decide, Int.natCast_eq_zero]
  rw [hd]

/-- Witness for the amended C4 at concrete inputs (local size 7, header
value "abc" that `Atoi` rejects). -/
theorem needUpdate_size_compare_witness :
    needUpdate (StatResult.missing "no such file") (HeadResult.hok "10")
      = (Except.ok true, false)
    ∧ needUpdate (StatResult.found 7) (HeadResult.herr "connection refused")
      = (Except.error "connection refused", true)
    ∧ needUpdate (StatResult.found 7) (HeadResult.hok "10")
      = (Except.ok (decide (¬ (7 : Int) = (goAtoi "10").1)), true)
    ∧ (goAtoi "abc").1 = 0
    ∧ needUpdate (StatResult.found 7) (HeadResult.hok "abc")
      = (Except.ok (decide (¬ 7 = 0)), true) := by
  have h10 := needUpdate_size_compare "connection refused" "10" 7 (HeadResult.hok "10")
  have habc := needUpdate_size_compare "connection refused" "abc" 7 (HeadResult.hok "abc")
  exact ⟨needUpdate_size_compare "no such file" "10" 7 (HeadResult.hok "10") |>.1,
    h10.2.1, h10.2.2.1, habc.2.2.2.1 rfl, habc.2.2.2.2 rfl⟩

/-! ## Claim C6 -/

/-- Counterexample to C6: when the body write fails during the download
(`io.Copy` error), the cycle fails and propagates the error, but the
already-created temp file is never removed — the failed attempt leaves
it behind. -/
theorem tempfile_cleanup_counterexample :
    runUpdate "_freegeoip.42.db.gz"
        ⟨Except.ok true, DlOutcome.copyErr "write failed", RenameOutcome.ok⟩
      = (some "write failed", ⟨["_freegeoip.42.db.gz"], []⟩)
    ∧ (runUpdate "_freegeoip.42.db.gz"
        ⟨Except.ok true, DlOutcome.copyErr "write failed", RenameOutcome.ok⟩).2.leftover
      = ["_freegeoip.42.db.gz"] := by
  exact ⟨rfl, rfl⟩

/-- Claim C6 (amended): when the final rename (or the `makeDir` step
before it) fails during install, the temp file is removed and the
original failure propagated to the scheduler; but when the body write
fails during the download, the failure is propagated while the created
temp file is left behind — only the install stage cleans up. -/
theorem tempfile_cleanup (tmp e : String) (r : RenameOutcome) :
    runUpdate tmp ⟨Except.ok true, DlOutcome.ok, RenameOutcome.renameErr e⟩
      = (some e, ⟨[tmp], [tmp]⟩)
    ∧ runUpdate tmp ⟨Except.ok true, DlOutcome.ok, RenameOutcome.mkdirErr e⟩
      = (some e, ⟨[tmp], [tmp]⟩)
    ∧ runUpdate tmp ⟨Except.ok true, DlOutcome.copyErr e, r⟩
      = (some e, ⟨[tmp], []⟩) := by
  exact ⟨rfl, rfl, rfl⟩

/-! ## Claim C9 -/

/-- Load oracle used by the C9 counterexample: every reload succeeds. -/
def c9load : Nat → LoadOutcome :=
  fun k => LoadOutcome.ok ⟨100 + k, fun a => Except.ok a⟩ (1000 + (k : Int))

/-- Three rapid modify events for the canonical path, all delivered by
the watch primitive within one burst. -/
def c9burst : List WatchMsg :=
  [WatchMsg.event ⟨"/tmp/freegeoip/db.gz", false, true⟩,
   WatchMsg.event ⟨"/tmp/freegeoip/db.gz", false, true⟩,
   WatchMsg.event ⟨"/tmp/freegeoip/db.gz", false, true⟩]

/-- Counterexample to C9: the one-second sleep only delays the next
receive; queued events are not dropped, so a burst of three modify
events for the canonical path produces three reloads, not one. -/
theorem debounce_counterexample :
    (watchEventsRun c9load (openURLInit 3600 86400) c9burst 0).2.1 = 3
    ∧ ¬ (watchEventsRun c9load (openURLInit 3600 86400) c9burst 0).2.1 = 1 := by
  constructor
  · rfl
  · intro h
    have h3 : (watchEventsRun c9load (openURLInit 3600 86400) c9burst 0).2.1 = 3 := rfl
    rw [h] at h3
    cases h3

/-- Claim C9 (amended): the watcher sleeps one second after processing
every message (rate-limiting reloads to at most one per second), but
coalesces nothing: each queued create/modify event naming the canonical
file triggers its own reload, so the reload count equals the number of
matching events in the queue — a burst of three modify events yields
three reloads. -/
theorem watch_rate_limit_no_coalesce (load : Nat → LoadOutcome) (db : DB)
    (msgs : List WatchMsg) (k : Nat) :
    (watchEventsRun load db msgs k).2.1
        = k + (msgs.filter (msgTriggers db.file)).length
    ∧ (watchEventsRun load db msgs k).2.2 = msgs.length := by
  induction msgs generalizing db k with
  | nil => exact ⟨rfl, rfl⟩
  | cons msg rest ih =>
    by_cases h : msgTriggers db.file msg = true
    · have hfile := openFile_file db (load k)
      have ihr := ih ((db.openFile (load k)).1) (k + 1)
      rw [hfile] at ihr
      constructor
      · show (watchEventsRun load db (msg :: rest) k).2.1 = _
        unfold watchEventsRun
        rw [if_pos h, List.filter_cons, if_pos h]
        simp only [ihr.1, List.length_cons]
        omega
      · show (watchEventsRun load db (msg :: rest) k).2.2 = _
        unfold watchEventsRun
        rw [if_pos h]
        simp only [ihr.2, List.length_cons]
    · have hb : msgTriggers db.file msg = false := by
        cases hx : msgTriggers db.file msg
        · rfl
        · exact absurd hx h
      have ihr := ih db k
      constructor
      · show (watchEventsRun load db (msg :: rest) k).2.1 = _
        unfold watchEventsRun
        rw [if_neg h, List.filter_cons, if_neg h]
        exact ihr.1
      · show (watchEventsRun load db (msg :: rest) k).2.2 = _
        unfold watchEventsRun
        rw [if_neg h]
        simp only [ihr.2, List.length_cons]

/-! ## Claim C7 -/

/-- Load oracle for the C7 failing input: the canonical file is corrupt,
so every reload attempt fails with a gzip error. -/
def c7load : Nat → LoadOutcome :=
  fun _ => LoadOutcome.fail "gzip: invalid header"

/-- Two watch messages: a modify event for the canonical path (whose
reload fails) followed by a watch-primitive error (discarded). -/
def c7msgs : List WatchMsg :=
  [WatchMsg.event ⟨"/tmp/freegeoip/db.gz", false, true⟩,
   WatchMsg.werror "inotify overflow"]

/-- The watch loop run at the C7 failing input. -/
def c7run : DB × Nat × Nat :=
  watchEventsRun c7load (openURLInit 3600 86400) c7msgs 0

/-- Evaluation at the C7 failing input: `watchEvents` calls
`db.openFile()` and discards its error — the handle (in particular its
`notifyError` stream) is completely unchanged, no error is ever emitted,
and the loop keeps processing subsequent messages (both messages are
handled, with a one-second pause after each). This contradicts the
claim (and `NotifyError`'s own documentation) that reload failures are
surfaced on the error stream; only the survival of the watcher matches
the claim. -/
theorem watch_reload_error_silently_dropped :
    c7run.1 = openURLInit 3600 86400
    ∧ c7run.1.notifyError.slot = none
    ∧ c7run.2.1 = 1
    ∧ c7run.2.2 = 2 := by
  exact ⟨rfl, rfl, rfl, rfl⟩
